import Mathlib

/-!
Shallow embedding of `src/cookiedl.py`.

The Python script downloads a list of URLs with `wget`, using a cookies
file, skipping files whose destination already exists (optionally forcing
a re-download or asking per file), after probing cookie validity with
`wget --spider` on the first link.

Strings are modelled by Lean `String`.  Percent-decoding is modelled at
the byte level (each decoded `%XX` byte becomes the character with that
code point); this agrees with CPython `urllib.parse.unquote` on every
escape sequence that decodes to ASCII bytes (multi-byte UTF-8
recombination of consecutive non-ASCII escapes is not modelled).
Subprocess exit codes, interactive answers and the file system are
modelled by an explicit `World` record, and the script's observable
actions (subprocess spawns, prompts, the cookies-file write) by an
`Event` trace; thread-pool execution of independent tasks is modelled
by an arbitrary completion order over task indices.
-/

namespace Cookiedl

/-- Characters stripped from the front of a URL by `urllib.parse.urlsplit`
(the WHATWG set: C0 controls and space). -/
def isC0OrSpace (c : Char) : Bool := c.toNat ≤ 0x20

/-- Characters removed anywhere in a URL by `urlsplit` (tab, CR, LF). -/
def isUnsafeUrlChar (c : Char) : Bool := c = '\t' || c = '\r' || c = '\n'

/-- Characters allowed in a URL scheme (`urllib.parse.scheme_chars`). -/
def isSchemeChar (c : Char) : Bool := c.isAlphanum || c = '+' || c = '-' || c = '.'

/-- Drop a leading `scheme:` when present, as `urlsplit` does: the first
`:` must come after at least one character, the first character must be
an ASCII letter, and everything before the `:` must be a scheme
character. -/
def splitScheme (l : List Char) : List Char :=
  match l.findIdx? (· = ':') with
  | some i =>
      if 0 < i && (l.headD 'a').isAlpha && (l.take i).all isSchemeChar then
        l.drop (i + 1)
      else l
  | none => l

/-- Drop a leading `//netloc` when present (`urllib.parse._splitnetloc`):
the authority extends to the first `/`, `?` or `#` after the leading
`//`.  (The `ValueError` raised for mismatched `[`/`]` brackets in the
authority is not modelled; no claim involves IPv6 hosts.) -/
def splitNetloc (l : List Char) : List Char :=
  match l with
  | '/' :: '/' :: rest => rest.dropWhile (fun c => !(c = '/' || c = '?' || c = '#'))
  | _ => l

/-- Keep the part before the first `#` (fragment split in `urlsplit`). -/
def stripFragment (l : List Char) : List Char := l.takeWhile (· ≠ '#')

/-- Keep the part before the first `?` (query split in `urlsplit`). -/
def stripQuery (l : List Char) : List Char := l.takeWhile (· ≠ '?')

/-- The suffix after the last `/` (all of `l` when there is no `/`). -/
def afterLastSlash (l : List Char) : List Char := (l.reverse.takeWhile (· ≠ '/')).reverse

/-- Everything up to and including the last `/` (empty when there is no `/`). -/
def upToLastSlash (l : List Char) : List Char := (l.reverse.dropWhile (· ≠ '/')).reverse

/-- Split `;params` off the last path segment (`urllib.parse._splitparams`,
applied by `urlparse` on top of `urlsplit`). -/
def splitParams (l : List Char) : List Char :=
  if l.contains ';' then
    if l.contains '/' then
      let base := afterLastSlash l
      if base.contains ';' then upToLastSlash l ++ base.takeWhile (· ≠ ';') else l
    else l.takeWhile (· ≠ ';')
  else l

/-- The `path` component of `urllib.parse.urlparse(link)`, as read at
line 43 of the script (`parsed.path`). -/
def urlparsePath (url : String) : String :=
  let l := (url.toList.dropWhile isC0OrSpace).filter (fun c => !isUnsafeUrlChar c)
  String.mk (splitParams (stripQuery (stripFragment (splitNetloc (splitScheme l)))))

/-- `os.path.basename` (POSIX flavour): everything after the last `/`. -/
def basename (p : String) : String := String.mk (afterLastSlash p.toList)

/-- Numeric value of a hexadecimal digit (`_hexdig` in
`urllib.parse`), `none` for any other character.  Written over code
points: `0`-`9` are 48-57, `A`-`F` are 65-70, `a`-`f` are 97-102. -/
def hexDigit (c : Char) : Option Nat :=
  let n := c.toNat
  if 48 ≤ n ∧ n ≤ 57 then some (n - 48)
  else if 65 ≤ n ∧ n ≤ 70 then some (n - 55)
  else if 97 ≤ n ∧ n ≤ 102 then some (n - 87)
  else none

/-- Percent-decoding (`urllib.parse.unquote`) at the byte level: `%`
followed by two hex digits becomes the character with that byte value;
a `%` not followed by a valid hex pair is kept verbatim, exactly as
CPython's `unquote_to_bytes` keeps the malformed chunk. -/
def unquoteChars : List Char → List Char
  | [] => []
  | '%' :: a :: b :: rest =>
      match hexDigit a, hexDigit b with
      | some hi, some lo => Char.ofNat (16 * hi + lo) :: unquoteChars rest
      | _, _ => '%' :: unquoteChars (a :: b :: rest)
  | c :: rest => c :: unquoteChars rest

/-- `urllib.parse.unquote` on a string (see `unquoteChars`). -/
def unquote (s : String) : String := String.mk (unquoteChars s.toList)

/-- Whether a path string starts with the separator `/`. -/
def startsWithSlash (s : String) : Bool :=
  match s.toList with
  | '/' :: _ => true
  | _ => false

/-- Whether a path string ends with the separator `/`. -/
def endsWithSlash (s : String) : Bool := s.toList.getLast? = some '/'

/-- `os.path.join` for two components (POSIX flavour): an absolute second
component replaces the first; otherwise the components are joined with a
single `/`. -/
def joinPath (a b : String) : String :=
  if startsWithSlash b then b
  else if a = "" || endsWithSlash a then a ++ b
  else a ++ "/" ++ b

/-- Destination path computed by `download_link` (lines 42-47 of the
script): `os.path.basename` of the URL's path component, then
percent-decoded, with fallback `"downloaded_file"` when empty, joined
with the download directory. -/
def resolveDestination (dl_path link : String) : String :=
  let output_filename := unquote (basename (urlparsePath link))
  let output_filename := if output_filename = "" then "downloaded_file" else output_filename
  joinPath dl_path output_filename

/-- Final path segment computed left-to-right: the characters seen since
the most recent `/`.  Spec-side formulation of "the final path segment",
written independently of `basename`. -/
def finalSegment (s : String) : String :=
  String.mk (s.toList.foldl (fun acc c => if c = '/' then [] else acc ++ [c]) [])

/-- Destination computation exactly as claim C1 words it: percent-decode
the whole path component FIRST, then take the final segment of the
decoded path. -/
def resolveDestination_claimOrder (dl_path link : String) : String :=
  let fn := finalSegment (unquote (urlparsePath link))
  let fn := if fn = "" then "downloaded_file" else fn
  joinPath dl_path fn

/-- Amended destination computation: take the final segment of the still
percent-encoded path component, THEN percent-decode that segment (the
order the code actually uses, stated in the spec's vocabulary). -/
def resolveDestination_amendedOrder (dl_path link : String) : String :=
  let fn := unquote (finalSegment (urlparsePath link))
  let fn := if fn = "" then "downloaded_file" else fn
  joinPath dl_path fn

/-- Outcome of one download task, the spec's classification of what
`download_link` did for its link. -/
inductive Outcome
  | downloaded
  | skipped
  | failed
  deriving DecidableEq, Repr

/-- The two boolean command-line flags relevant to the existence policy. -/
structure Config where
  force_download : Bool
  force_download_ask : Bool
  deriving DecidableEq, Repr

/-- The environment the script interacts with: the file system, the
user's interactive answers, and the exit codes of the `wget`
subprocesses.  Answers to the per-file "Download again?" prompt are
keyed by the destination path; transfer exit codes by the link. -/
structure World where
  fileExists : String → Bool
  askAnswer : String → String
  transferExit : String → Nat
  probeExit : Nat
  continueAnswer : String
  downloadNowAnswer : String
  cookiesFileExists : Bool
  linksFileLines : List String

/-- Observable actions of the script, in program order.  `writeCookies`
is the only event that writes the cookies file; `probe` and `transfer`
spawn `wget` subprocesses that read it. -/
inductive Event
  | writeCookies
  | probe (test_link : String)
  | warnCookieTest
  | promptContinue
  | promptDownloadNow
  | askExists (dest : String)
  | transfer (link dest : String)
  | logDownloadSkipped
  deriving DecidableEq, Repr

/-- Whether an event is a download-transfer subprocess spawn. -/
def isTransfer : Event → Bool
  | Event.transfer _ _ => true
  | _ => false

/-- Python `str.strip()` whitespace (the ASCII part: space, `\t`, `\n`,
`\r`, `\v`, `\f`; Unicode spaces are not modelled). -/
def pyIsSpace (c : Char) : Bool :=
  c = ' ' || c = '\t' || c = '\n' || c = '\r' || c.toNat = 0x0b || c.toNat = 0x0c

/-- Python `str.strip()`: drop whitespace from both ends. -/
def pyStrip (s : String) : String :=
  String.mk (((s.toList.dropWhile pyIsSpace).reverse.dropWhile pyIsSpace).reverse)

/-- Python `str.lower()` on one character (ASCII case map). -/
def pyLowerChar (c : Char) : Char :=
  if 'A' ≤ c && c ≤ 'Z' then Char.ofNat (c.toNat + 32) else c

/-- Python `answer.strip().lower()` as applied to interactive answers. -/
def stripLower (s : String) : String := String.mk ((pyStrip s).toList.map pyLowerChar)

/-- `test_cookies` (lines 27-38): spawn `wget --spider` with the cookies
file on the test link; on non-zero exit log a warning and return
`false`, otherwise return `true`.  The function is total: probe failure
is an ordinary boolean result, never an exception. -/
def test_cookies (w : World) (test_link : String) : List Event × Bool :=
  if w.probeExit ≠ 0 then ([Event.probe test_link, Event.warnCookieTest], false)
  else ([Event.probe test_link], true)

/-- `download_link` (lines 40-70): resolve the destination, apply the
existence policy (ask takes precedence over force, plain skip
otherwise), then run the transfer subprocess; a non-zero transfer exit
(`CalledProcessError`) is caught and logged, yielding `failed`. -/
def download_link (w : World) (cfg : Config) (dl_path link : String) : List Event × Outcome :=
  let output_file := resolveDestination dl_path link
  let transferRun : List Event × Outcome :=
    ([Event.transfer link output_file],
      if w.transferExit link = 0 then Outcome.downloaded else Outcome.failed)
  if w.fileExists output_file then
    if cfg.force_download_ask then
      if stripLower (w.askAnswer output_file) ≠ "y" then
        ([Event.askExists output_file], Outcome.skipped)
      else
        (Event.askExists output_file :: transferRun.fst, transferRun.snd)
    else if cfg.force_download then transferRun
    else ([], Outcome.skipped)
  else transferRun

/-- Lines 166-167: `[line.strip() for line in f if line.strip()]`. -/
def normalizeLinks (lines : List String) : List String :=
  (lines.filter (fun s => pyStrip s ≠ "")).map pyStrip

/-- Lines 180-194: ask "Do you want to download the files now using
wget? (y/n)"; on "y" run `download_link` for every link (thread-pool
execution linearised per task; see `fetchAll` for the completion-order
view), otherwise log "Download skipped.".  Either way execution falls
off the end of `main`, so the exit code is 0. -/
def downloadPhase (w : World) (cfg : Config) (dl_path : String)
    (links : List String) (ev : List Event) : List Event × Nat :=
  let ev := ev ++ [Event.promptDownloadNow]
  if stripLower w.downloadNowAnswer = "y" then
    (ev ++ (links.map (fun link => (download_link w cfg dl_path link).fst)).flatten, 0)
  else (ev ++ [Event.logDownloadSkipped], 0)

/-- `main` from line 140 on (after argument parsing, logging setup and
directory creation): write the cookies file only when absent, read and
normalise the links file, exit 1 when no links remain, probe the
cookies with the first link, on probe failure ask whether to continue
and exit 1 unless the answer is "y", then run the download phase. -/
def mainRun (w : World) (cfg : Config) (dl_path : String) : List Event × Nat :=
  let evCookies := if w.cookiesFileExists then [] else [Event.writeCookies]
  let links := normalizeLinks w.linksFileLines
  if links.isEmpty then (evCookies, 1)
  else
    let tc := test_cookies w links.headI
    let ev1 := evCookies ++ tc.fst
    if tc.snd = false then
      let ev2 := ev1 ++ [Event.promptContinue]
      if stripLower w.continueAnswer = "y" then downloadPhase w cfg dl_path links ev2
      else (ev2, 1)
    else downloadPhase w cfg dl_path links ev1

/-- The batch phase of lines 182-192 seen through completion order: one
future per link (the `futures` dict is keyed by distinct future
objects, so duplicates submit separately), and `as_completed` yields
the futures in some order `order` over the task indices.  Collecting a
result never throws: `CalledProcessError` is already caught inside
`download_link`, and the `except` at line 191 catches anything else. -/
def fetchAll (w : World) (cfg : Config) (dl_path : String)
    (links : List String) (order : List Nat) : List Outcome :=
  order.map (fun i => (download_link w cfg dl_path (links.getD i "")).snd)

/-- A baseline world for concrete witnesses: no destination exists, all
subprocesses succeed, the user answers "y" to the download prompt. -/
def wBase : World :=
  { fileExists := fun _ => false
    askAnswer := fun _ => "n"
    transferExit := fun _ => 0
    probeExit := 0
    continueAnswer := "n"
    downloadNowAnswer := "y"
    cookiesFileExists := true
    linksFileLines := ["https://host/a/b%20c.zip", "https://host/other.bin"] }

/-- Config with neither force flag set (the default policy). -/
def cfgNone : Config := ⟨false, false⟩

/-- Config with both force flags set. -/
def cfgBoth : Config := ⟨true, true⟩

/-- Whether an event is the cookies-file write. -/
def isWriteCookies : Event → Bool
  | Event.writeCookies => true
  | _ => false

/-- Number of cookies-file writes in a trace. -/
def countWrites (tr : List Event) : Nat := tr.countP isWriteCookies

/-- Concrete two-element link list for witnesses. -/
def links2 : List String := ["https://host/x.bin", "https://host/y.bin"]

/-- World whose links file holds only blank lines (claim C3 witness). -/
def wC3 : World := { wBase with linksFileLines := ["", "   "] }

/-- World where every destination already exists (claim C4 witness). -/
def wC4 : World := { wBase with fileExists := fun _ => true }

/-- World where every destination exists and the per-file answer is
`" Y "` (claim C5 witness; exercises strip + lowercase). -/
def wC5 : World := { wBase with fileExists := fun _ => true, askAnswer := fun _ => " Y " }

/-- World whose cookie probe fails (claim C6 witness). -/
def wC6 : World := { wBase with probeExit := 7 }

/-- World where the probe fails and the user declines to continue
(claim C7 witness). -/
def wC7 : World := { wBase with probeExit := 1, continueAnswer := "no" }

/-- World where the first link's transfer fails and the second succeeds
(claim C8 witness). -/
def wC8 : World :=
  { wBase with transferExit := fun l => if l = "https://host/a/b%20c.zip" then 8 else 0 }

/-- World with no pre-existing cookies file (claim C9 witness). -/
def wC9 : World := { wBase with cookiesFileExists := false }

/-- World where the user declines the final download prompt
(claim C10 witness). -/
def wC10 : World := { wBase with downloadNowAnswer := "nope" }

/-! ## Helper lemmas -/

/-- Reading the final segment left-to-right (reset at each `/`) agrees
with taking the suffix after the last `/`. -/
theorem foldl_segment_eq_afterLastSlash (l : List Char) :
    l.foldl (fun acc c => if c = '/' then [] else acc ++ [c]) [] = afterLastSlash l := by
  induction l using List.reverseRecOn with
  | nil => rfl
  | append_singleton l c ih =>
      rw [List.foldl_append, List.foldl_cons, List.foldl_nil, ih]
      unfold afterLastSlash
      rw [List.reverse_append, List.reverse_singleton, List.singleton_append,
        List.takeWhile_cons]
      by_cases hc : c = '/'
      · simp [hc]
      · simp [hc]

/-- Every event emitted by `download_link` is the per-file prompt or the
transfer spawn for that link. -/
theorem download_link_events (w : World) (cfg : Config) (dl_path link : String) :
    ∀ e ∈ (download_link w cfg dl_path link).fst,
      e = Event.askExists (resolveDestination dl_path link) ∨
      e = Event.transfer link (resolveDestination dl_path link) := by
  intro e he
  simp only [download_link] at he
  split_ifs at he <;> simp_all

/-- An event that is neither a per-file prompt nor a transfer spawn does
not occur in the concatenated traces of the download phase. -/
theorem not_mem_download_flatten (w : World) (cfg : Config) (dl_path : String)
    (links : List String) (e : Event)
    (h1 : ∀ dest, e ≠ Event.askExists dest)
    (h2 : ∀ l d, e ≠ Event.transfer l d) :
    e ∉ ((links.map (fun link => (download_link w cfg dl_path link).fst)).flatten) := by
  intro hmem
  rw [List.mem_flatten] at hmem
  obtain ⟨tr, htr, he⟩ := hmem
  rw [List.mem_map] at htr
  obtain ⟨l, _, rfl⟩ := htr
  rcases download_link_events w cfg dl_path l e he with h | h
  · exact h1 _ h
  · exact h2 _ _ h

/-- Mapping positional lookup over `range (length links)` returns the
list itself. -/
theorem map_getD_range {α : Type} (links : List α) (d : α) :
    (List.range links.length).map (fun i => links.getD i d) = links := by
  induction links with
  | nil => rfl
  | cons a l ih =>
      rw [List.length_cons, List.range_succ_eq_map, List.map_cons, List.map_map]
      simp only [Function.comp_def, List.getD_cons_zero, List.getD_cons_succ]
      rw [ih]

/-- If no task in `links` spawns a transfer, neither does the flattened
download-phase trace. -/
theorem any_isTransfer_flatten (w : World) (cfg : Config) (dl_path : String)
    (links : List String)
    (hdl : ∀ link ∈ links, (download_link w cfg dl_path link).fst.any isTransfer = false) :
    ((links.map (fun link => (download_link w cfg dl_path link).fst)).flatten).any
      isTransfer = false := by
  induction links with
  | nil => rfl
  | cons a l ih =>
      simp only [List.map_cons, List.flatten_cons, List.any_append]
      rw [hdl a (List.mem_cons_self a l), ih (fun x hx => hdl x (List.mem_cons_of_mem a hx))]
      rfl

/-- Under the default policy, an existing destination makes
`download_link` skip without any subprocess. -/
theorem download_link_skip (w : World) (cfg : Config) (dl_path link : String)
    (h1 : cfg.force_download = false) (h2 : cfg.force_download_ask = false)
    (hex : w.fileExists (resolveDestination dl_path link) = true) :
    download_link w cfg dl_path link = ([], Outcome.skipped) := by
  simp [download_link, hex, h1, h2]

/-! ## Claims -/

/-- Claim C1, counterexample: the claim says the path component is
percent-decoded FIRST and the final segment taken from the decoded
path; the code takes `os.path.basename` of the still-encoded path and
decodes only that segment.  For `https://host/a%2Fb.zip` the code
produces filename `a/b.zip` (joined: `./a/b.zip`) while the claim's
order produces `b.zip` (joined: `./b.zip`). -/
theorem claim_C1_counterexample :
    resolveDestination "." "https://host/a%2Fb.zip" = "./a/b.zip" ∧
    resolveDestination_claimOrder "." "https://host/a%2Fb.zip" = "./b.zip" ∧
    resolveDestination "." "https://host/a%2Fb.zip" ≠
      resolveDestination_claimOrder "." "https://host/a%2Fb.zip" :=
  ⟨by decide, by decide, by decide⟩

/-- Claim C1, amended: for every URL the destination is the URL's path
component's final (still percent-encoded) segment, THEN percent-decoded,
with fallback `"downloaded_file"` when empty, joined with the output
directory; the claim's two concrete examples hold as stated. -/
theorem claim_C1_resolveDestination :
    (∀ dl_path link, resolveDestination dl_path link =
      resolveDestination_amendedOrder dl_path link) ∧
    unquote (basename (urlparsePath "https://host/a/b%20c.zip")) = "b c.zip" ∧
    resolveDestination "." "https://host/a/b%20c.zip" = joinPath "." "b c.zip" ∧
    resolveDestination "." "https://host/" = joinPath "." "downloaded_file" := by
  refine ⟨fun dl_path link => ?_, by decide, by decide, by decide⟩
  simp only [resolveDestination, resolveDestination_amendedOrder, basename, finalSegment,
    foldl_segment_eq_afterLastSlash]

/-- Claim C2: with one future per link and any completion order (a
permutation of the task indices), the batch phase collects exactly one
outcome per input link — the collected outcomes are a permutation of
the per-link outcomes, no task is dropped, none runs twice — and this
holds for every `World`, in particular no matter how many transfers
fail. -/
theorem claim_C2_fetchAll (w : World) (cfg : Config) (dl_path : String)
    (links : List String) (order : List Nat)
    (horder : order.Perm (List.range links.length)) :
    (fetchAll w cfg dl_path links order).length = links.length ∧
    (fetchAll w cfg dl_path links order).Perm
      (links.map (fun link => (download_link w cfg dl_path link).snd)) ∧
    ∀ i, i < links.length → order.count i = 1 := by
  have hrange : (List.range links.length).map
      (fun i => (download_link w cfg dl_path (links.getD i "")).snd) =
      links.map (fun link => (download_link w cfg dl_path link).snd) := by
    have h1 := congrArg (List.map (fun link => (download_link w cfg dl_path link).snd))
      (map_getD_range links "")
    rw [List.map_map] at h1
    exact h1
  have hmap := horder.map (fun i => (download_link w cfg dl_path (links.getD i "")).snd)
  rw [hrange] at hmap
  refine ⟨hmap.length_eq.trans (List.length_map _ _), hmap, fun i hi => ?_⟩
  rw [horder.count_eq i]
  exact List.count_eq_one_of_mem (List.nodup_range _) (List.mem_range.mpr hi)

/-- Claim C2, witness at a concrete two-link batch completed in reverse
order. -/
theorem claim_C2_witness :
    ([1, 0] : List Nat).Perm (List.range links2.length) ∧
    (fetchAll wBase cfgNone "." links2 [1, 0]).length = links2.length ∧
    (fetchAll wBase cfgNone "." links2 [1, 0]).Perm
      (links2.map (fun link => (download_link wBase cfgNone "." link).snd)) :=
  have h : ([1, 0] : List Nat).Perm (List.range links2.length) := by decide
  ⟨h, (claim_C2_fetchAll wBase cfgNone "." links2 [1, 0] h).1,
    (claim_C2_fetchAll wBase cfgNone "." links2 [1, 0] h).2.1⟩

/-- Claim C3: when the links file, after trimming and dropping blank
lines, is empty, the program exits with code 1, spawns no transfer
subprocess, and never reaches the download prompt. -/
theorem claim_C3_empty_links (w : World) (cfg : Config) (dl_path : String)
    (h : normalizeLinks w.linksFileLines = []) :
    (mainRun w cfg dl_path).snd = 1 ∧
    (mainRun w cfg dl_path).fst.any isTransfer = false ∧
    Event.promptDownloadNow ∉ (mainRun w cfg dl_path).fst := by
  by_cases hck : w.cookiesFileExists <;>
    simp [mainRun, h, hck, isTransfer]

/-- Claim C3, witness: a links file holding only blank lines. -/
theorem claim_C3_witness :
    normalizeLinks wC3.linksFileLines = [] ∧
    (mainRun wC3 cfgNone ".").snd = 1 ∧
    (mainRun wC3 cfgNone ".").fst.any isTransfer = false :=
  have h : normalizeLinks wC3.linksFileLines = [] := by decide
  ⟨h, (claim_C3_empty_links wC3 cfgNone "." h).1,
    (claim_C3_empty_links wC3 cfgNone "." h).2.1⟩

/-- Claim C4: with neither force flag set, a task whose destination
exists yields `skipped` with no subprocess at all; and when every
normalised link's destination exists, the whole run spawns zero
transfer subprocesses, whatever the user answers and however the probe
exits. -/
theorem claim_C4_skip_if_exists (w : World) (cfg : Config) (dl_path link : String)
    (h1 : cfg.force_download = false) (h2 : cfg.force_download_ask = false)
    (hex : w.fileExists (resolveDestination dl_path link) = true)
    (hall : ∀ l ∈ normalizeLinks w.linksFileLines,
      w.fileExists (resolveDestination dl_path l) = true) :
    download_link w cfg dl_path link = ([], Outcome.skipped) ∧
    (mainRun w cfg dl_path).fst.any isTransfer = false := by
  refine ⟨download_link_skip w cfg dl_path link h1 h2 hex, ?_⟩
  have hflat := any_isTransfer_flatten w cfg dl_path (normalizeLinks w.linksFileLines)
    (fun l hl => by rw [download_link_skip w cfg dl_path l h1 h2 (hall l hl)]; rfl)
  by_cases hempty : (normalizeLinks w.linksFileLines).isEmpty <;>
  by_cases hck : w.cookiesFileExists <;>
  by_cases hpe : w.probeExit = 0 <;>
  by_cases hcont : stripLower w.continueAnswer = "y" <;>
  by_cases hnow : stripLower w.downloadNowAnswer = "y" <;>
    simp [mainRun, downloadPhase, test_cookies, hempty, hck, hpe, hcont, hnow,
      List.any_append, isTransfer, hflat]

/-- Claim C4, witness: both links' destinations already present. -/
theorem claim_C4_witness :
    wC4.fileExists (resolveDestination "." "https://host/a/b%20c.zip") = true ∧
    download_link wC4 cfgNone "." "https://host/a/b%20c.zip" = ([], Outcome.skipped) ∧
    (mainRun wC4 cfgNone ".").fst.any isTransfer = false :=
  have h := claim_C4_skip_if_exists wC4 cfgNone "." "https://host/a/b%20c.zip"
    rfl rfl (by decide) (fun l _ => rfl)
  ⟨rfl, h.1, h.2⟩

/-- Claim C5: when both flags are set and the destination exists, the
ask flag wins: the per-file prompt is issued, the transfer runs exactly
when the stripped lowercased answer is `"y"` (succeeding or failing
with the subprocess), and any other answer skips the task. -/
theorem claim_C5_ask_precedence (w : World) (cfg : Config) (dl_path link : String)
    (_h1 : cfg.force_download = true) (h2 : cfg.force_download_ask = true)
    (hex : w.fileExists (resolveDestination dl_path link) = true) :
    Event.askExists (resolveDestination dl_path link) ∈ (download_link w cfg dl_path link).fst ∧
    (stripLower (w.askAnswer (resolveDestination dl_path link)) = "y" →
      download_link w cfg dl_path link =
        ([Event.askExists (resolveDestination dl_path link),
          Event.transfer link (resolveDestination dl_path link)],
          if w.transferExit link = 0 then Outcome.downloaded else Outcome.failed)) ∧
    (stripLower (w.askAnswer (resolveDestination dl_path link)) ≠ "y" →
      download_link w cfg dl_path link =
        ([Event.askExists (resolveDestination dl_path link)], Outcome.skipped)) := by
  by_cases hans : stripLower (w.askAnswer (resolveDestination dl_path link)) = "y" <;>
    refine ⟨?_, fun hy => ?_, fun hn => ?_⟩ <;>
    simp_all [download_link, hex, h2]

/-- Claim C5, witness: destination exists, both flags set, answer
`" Y "` (stripped and lowercased to `"y"`), so the file is
re-downloaded after the prompt. -/
theorem claim_C5_witness :
    wC5.fileExists (resolveDestination "." "https://host/a/b%20c.zip") = true ∧
    stripLower (wC5.askAnswer (resolveDestination "." "https://host/a/b%20c.zip")) = "y" ∧
    download_link wC5 cfgBoth "." "https://host/a/b%20c.zip" =
      ([Event.askExists (resolveDestination "." "https://host/a/b%20c.zip"),
        Event.transfer "https://host/a/b%20c.zip"
          (resolveDestination "." "https://host/a/b%20c.zip")],
        if wC5.transferExit "https://host/a/b%20c.zip" = 0 then Outcome.downloaded
        else Outcome.failed) :=
  ⟨rfl, by decide,
    (claim_C5_ask_precedence wC5 cfgBoth "." "https://host/a/b%20c.zip" rfl rfl rfl).2.1
      (by decide)⟩

/-- Claim C6: cookie validation is a total boolean function of the
probe's exit status — never an exception: it returns `true` exactly
when the probe subprocess exits 0, and on a non-zero exit it logs the
warning and returns `false`. -/
theorem claim_C6_test_cookies (w : World) (test_link : String) :
    ((test_cookies w test_link).snd = true ↔ w.probeExit = 0) ∧
    (w.probeExit ≠ 0 →
      (test_cookies w test_link).snd = false ∧
      Event.warnCookieTest ∈ (test_cookies w test_link).fst) := by
  by_cases h : w.probeExit = 0 <;> simp [test_cookies, h]

/-- Claim C6, witness: a probe exiting 7 yields `false` with the
warning logged. -/
theorem claim_C6_witness :
    wC6.probeExit ≠ 0 ∧
    (test_cookies wC6 "https://host/a/b%20c.zip").snd = false ∧
    Event.warnCookieTest ∈ (test_cookies wC6 "https://host/a/b%20c.zip").fst :=
  have h : wC6.probeExit ≠ 0 := by decide
  ⟨h, ((claim_C6_test_cookies wC6 "https://host/a/b%20c.zip").2 h).1,
    ((claim_C6_test_cookies wC6 "https://host/a/b%20c.zip").2 h).2⟩

/-- Claim C7: a failed probe followed by any answer other than `"y"`
exits with code 1 before any download is scheduled: no transfer
subprocess is spawned and the download prompt is never reached. -/
theorem claim_C7_decline_exits (w : World) (cfg : Config) (dl_path : String)
    (hprobe : w.probeExit ≠ 0)
    (hdecline : stripLower w.continueAnswer ≠ "y") :
    (mainRun w cfg dl_path).snd = 1 ∧
    (mainRun w cfg dl_path).fst.any isTransfer = false ∧
    Event.promptDownloadNow ∉ (mainRun w cfg dl_path).fst := by
  by_cases hempty : (normalizeLinks w.linksFileLines).isEmpty <;>
  by_cases hck : w.cookiesFileExists <;>
    simp [mainRun, test_cookies, hprobe, hdecline, hempty, hck,
      List.any_append, isTransfer]

/-- Claim C7, witness: probe exits 1, user answers `"no"`. -/
theorem claim_C7_witness :
    wC7.probeExit ≠ 0 ∧ stripLower wC7.continueAnswer ≠ "y" ∧
    (mainRun wC7 cfgNone ".").snd = 1 ∧
    (mainRun wC7 cfgNone ".").fst.any isTransfer = false :=
  have h1 : wC7.probeExit ≠ 0 := by decide
  have h2 : stripLower wC7.continueAnswer ≠ "y" := by decide
  ⟨h1, h2, (claim_C7_decline_exits wC7 cfgNone "." h1 h2).1,
    (claim_C7_decline_exits wC7 cfgNone "." h1 h2).2.1⟩

/-- Claim C8: a transfer subprocess exiting non-zero makes only that
task `failed` (the `CalledProcessError` is caught and logged inside
`download_link`); any sibling task that proceeds still spawns its own
transfer, and the program's exit code is 0 no matter how many
transfers fail. -/
theorem claim_C8_failure_contained (w : World) (cfg : Config) (dl_path link sib : String)
    (hnex : w.fileExists (resolveDestination dl_path link) = false)
    (hfail : w.transferExit link ≠ 0)
    (hmem : link ∈ normalizeLinks w.linksFileLines)
    (hsibmem : sib ∈ normalizeLinks w.linksFileLines)
    (hsibnex : w.fileExists (resolveDestination dl_path sib) = false)
    (hok : w.probeExit = 0)
    (hnow : stripLower w.downloadNowAnswer = "y") :
    download_link w cfg dl_path link =
      ([Event.transfer link (resolveDestination dl_path link)], Outcome.failed) ∧
    Event.transfer sib (resolveDestination dl_path sib) ∈ (mainRun w cfg dl_path).fst ∧
    (mainRun w cfg dl_path).snd = 0 := by
  have hne : (normalizeLinks w.linksFileLines).isEmpty = false := by
    cases h' : normalizeLinks w.linksFileLines with
    | nil => rw [h'] at hmem; cases hmem
    | cons a l => exact List.isEmpty_cons
  have hsib : (download_link w cfg dl_path sib).fst =
      [Event.transfer sib (resolveDestination dl_path sib)] := by
    simp [download_link, hsibnex]
  refine ⟨by simp [download_link, hnex, hfail], ?_, ?_⟩
  · simp only [mainRun, downloadPhase, test_cookies, hne, hok, hnow]
    simp [List.mem_append, List.mem_flatten, List.mem_map]
    exact ⟨sib, hsibmem, by rw [hsib]; exact List.mem_singleton_self _⟩
  · simp [mainRun, downloadPhase, test_cookies, hne, hok, hnow]

/-- Claim C8, witness: the first link's transfer exits 8, the second
succeeds; the second link's transfer is still spawned and the run exits
0. -/
theorem claim_C8_witness :
    wC8.transferExit "https://host/a/b%20c.zip" ≠ 0 ∧
    download_link wC8 cfgNone "." "https://host/a/b%20c.zip" =
      ([Event.transfer "https://host/a/b%20c.zip"
          (resolveDestination "." "https://host/a/b%20c.zip")], Outcome.failed) ∧
    Event.transfer "https://host/other.bin" (resolveDestination "." "https://host/other.bin") ∈
      (mainRun wC8 cfgNone ".").fst ∧
    (mainRun wC8 cfgNone ".").snd = 0 :=
  have h := claim_C8_failure_contained wC8 cfgNone "." "https://host/a/b%20c.zip"
    "https://host/other.bin" rfl (by decide) (by decide) (by decide) rfl rfl (by decide)
  ⟨by decide, h.1, h.2.1, h.2.2⟩

/-- Claim C9: the cookies file is written at most once per run —
exactly once when it did not already exist, and then as the very first
action, before the validation probe and before any download; when it
existed, never.  All later events (`probe`, `transfer`) only read it. -/
theorem claim_C9_cookies_write_once (w : World) (cfg : Config) (dl_path : String) :
    countWrites (mainRun w cfg dl_path).fst = (if w.cookiesFileExists then 0 else 1) ∧
    (w.cookiesFileExists = false →
      (mainRun w cfg dl_path).fst.head? = some Event.writeCookies ∧
      countWrites (mainRun w cfg dl_path).fst.tail = 0) := by
  have hflat : ((normalizeLinks w.linksFileLines).map
      (fun l => (download_link w cfg dl_path l).fst)).flatten.countP isWriteCookies = 0 :=
    List.countP_eq_zero.mpr (fun e he => by
      rcases List.mem_flatten.mp he with ⟨tr, htr, he'⟩
      rcases List.mem_map.mp htr with ⟨l, _, rfl⟩
      rcases download_link_events w cfg dl_path l e he' with h | h <;>
        simp [h, isWriteCookies])
  by_cases hempty : (normalizeLinks w.linksFileLines).isEmpty <;>
  by_cases hck : w.cookiesFileExists <;>
  by_cases hpe : w.probeExit = 0 <;>
  by_cases hcont : stripLower w.continueAnswer = "y" <;>
  by_cases hnow : stripLower w.downloadNowAnswer = "y" <;>
    simp [mainRun, downloadPhase, test_cookies, countWrites, hempty, hck, hpe, hcont,
      hnow, List.countP_append, List.countP_cons, isWriteCookies, hflat]

/-- Claim C9, witness: no pre-existing cookies file — written once, as
the first event, and never again. -/
theorem claim_C9_witness :
    wC9.cookiesFileExists = false ∧
    countWrites (mainRun wC9 cfgNone ".").fst = 1 ∧
    (mainRun wC9 cfgNone ".").fst.head? = some Event.writeCookies ∧
    countWrites (mainRun wC9 cfgNone ".").fst.tail = 0 :=
  have h := claim_C9_cookies_write_once wC9 cfgNone "."
  ⟨rfl, by rw [h.1]; decide, (h.2 rfl).1, (h.2 rfl).2⟩

/-- Claim C10: once past cookie validation, the program asks the
download-now question; it enters the download phase exactly when the
stripped lowercased answer is `"y"`.  On any other answer it spawns no
transfer, logs "Download skipped.", and still exits 0; on `"y"` it also
exits 0 and the skip message is not logged. -/
theorem claim_C10_download_prompt (w : World) (cfg : Config) (dl_path : String)
    (hne : (normalizeLinks w.linksFileLines).isEmpty = false)
    (hreach : w.probeExit = 0 ∨ stripLower w.continueAnswer = "y") :
    Event.promptDownloadNow ∈ (mainRun w cfg dl_path).fst ∧
    (stripLower w.downloadNowAnswer ≠ "y" →
      (mainRun w cfg dl_path).fst.any isTransfer = false ∧
      Event.logDownloadSkipped ∈ (mainRun w cfg dl_path).fst ∧
      (mainRun w cfg dl_path).snd = 0) ∧
    (stripLower w.downloadNowAnswer = "y" →
      (mainRun w cfg dl_path).snd = 0 ∧
      Event.logDownloadSkipped ∉ (mainRun w cfg dl_path).fst) := by
  have hflat : Event.logDownloadSkipped ∉ ((normalizeLinks w.linksFileLines).map
      (fun l => (download_link w cfg dl_path l).fst)).flatten :=
    not_mem_download_flatten w cfg dl_path _ _ (fun d h => by cases h)
      (fun l d h => by cases h)
  rcases hreach with hok | hcont
  · by_cases hck : w.cookiesFileExists <;>
    by_cases hnow : stripLower w.downloadNowAnswer = "y" <;>
      simp [mainRun, downloadPhase, test_cookies, hne, hok, hck, hnow,
        List.any_append, isTransfer, hflat]
  · by_cases hck : w.cookiesFileExists <;>
    by_cases hpe : w.probeExit = 0 <;>
    by_cases hnow : stripLower w.downloadNowAnswer = "y" <;>
      simp [mainRun, downloadPhase, test_cookies, hne, hcont, hck, hpe, hnow,
        List.any_append, isTransfer, hflat]

/-- Claim C10, witness: answer `"nope"` — prompt reached, nothing
downloaded, skip message logged, exit 0. -/
theorem claim_C10_witness :
    (normalizeLinks wC10.linksFileLines).isEmpty = false ∧
    stripLower wC10.downloadNowAnswer ≠ "y" ∧
    Event.promptDownloadNow ∈ (mainRun wC10 cfgNone ".").fst ∧
    (mainRun wC10 cfgNone ".").fst.any isTransfer = false ∧
    Event.logDownloadSkipped ∈ (mainRun wC10 cfgNone ".").fst ∧
    (mainRun wC10 cfgNone ".").snd = 0 :=
  have h := claim_C10_download_prompt wC10 cfgNone "." (by decide) (Or.inl rfl)
  have hn : stripLower wC10.downloadNowAnswer ≠ "y" := by decide
  ⟨by decide, hn, h.1, (h.2.1 hn).1, (h.2.1 hn).2.1, (h.2.1 hn).2.2⟩

end Cookiedl
